import Mathlib

/-!
Verification of the deterministic risk-scoring core of the dementia
risk-assessment pipeline: the rule-based cognitive fallback estimator,
the speech fallback, the fusion functions, the categorizer and the
recommendation generator, together with the input-resolution and
memory-rescaling steps of the analyze route.

Python numerics are embedded over exact rationals: the literal 11.11 is
the rational 1111/100, the builtin int() applied to a float is
truncation toward zero, and round(x, 2) is round-half-to-even at two
decimal places.
-/

namespace TheSos

/-- Truncation toward zero of a rational, as the Python builtin int()
behaves on a float. -/
def pyTrunc (q : ℚ) : ℤ :=
  if 0 ≤ q then ⌊q⌋ else ⌈q⌉

/-- Round-half-to-even of a rational to the nearest integer, as the
Python builtin round() behaves. -/
def roundHalfEven (q : ℚ) : ℤ :=
  if q - ⌊q⌋ < 1/2 then ⌊q⌋
  else if 1/2 < q - ⌊q⌋ then ⌊q⌋ + 1
  else if ⌊q⌋ % 2 = 0 then ⌊q⌋ else ⌊q⌋ + 1

/-- Python round(x, 2): round-half-to-even at two decimal places. -/
def pyRound2 (q : ℚ) : ℚ :=
  (roundHalfEven (q * 100) : ℚ) / 100

theorem pyTrunc_mono {a b : ℚ} (h : a ≤ b) : pyTrunc a ≤ pyTrunc b := by
  unfold pyTrunc
  by_cases ha : 0 ≤ a
  · rw [if_pos ha, if_pos (le_trans ha h)]
    exact Int.floor_le_floor h
  · rw [if_neg ha]
    by_cases hb : 0 ≤ b
    · rw [if_pos hb]
      have h1 : a ≤ 0 := le_of_lt (lt_of_not_ge ha)
      have h2 : ⌈a⌉ ≤ 0 := Int.ceil_le.mpr (by exact_mod_cast h1)
      have h3 : (0 : ℤ) ≤ ⌊b⌋ := Int.le_floor.mpr (by exact_mod_cast hb)
      exact le_trans h2 h3
    · rw [if_neg hb]
      exact Int.ceil_le_ceil h

theorem pyTrunc_nonneg {q : ℚ} (h : 0 ≤ q) : 0 ≤ pyTrunc q := by
  unfold pyTrunc
  rw [if_pos h]
  exact Int.le_floor.mpr (by exact_mod_cast h)

theorem roundHalfEven_ge {a : ℤ} {q : ℚ} (h : (a : ℚ) ≤ q) :
    a ≤ roundHalfEven q := by
  have hfl : a ≤ ⌊q⌋ := Int.le_floor.mpr h
  unfold roundHalfEven
  split_ifs <;> omega

theorem roundHalfEven_le {b : ℤ} {q : ℚ} (h : q ≤ (b : ℚ)) :
    roundHalfEven q ≤ b := by
  have hfl : ⌊q⌋ ≤ b := by
    have := Int.floor_le_floor h
    simpa using this
  have key : (1 : ℚ)/2 ≤ q - ⌊q⌋ → ⌊q⌋ + 1 ≤ b := by
    intro hr
    have hlt : (⌊q⌋ : ℚ) < q := by linarith
    have : (⌊q⌋ : ℚ) < (b : ℚ) := lt_of_lt_of_le hlt h
    have : ⌊q⌋ < b := by exact_mod_cast this
    omega
  unfold roundHalfEven
  split_ifs with h1 h2 h3
  · exact hfl
  · exact key (le_of_lt h2)
  · exact hfl
  · exact key (le_of_not_lt h1)

theorem pyRound2_ge {a : ℤ} {q : ℚ} (h : (a : ℚ)/100 ≤ q) :
    (a : ℚ)/100 ≤ pyRound2 q := by
  have h1 : (a : ℚ) ≤ q * 100 := by linarith
  have h2 := roundHalfEven_ge h1
  unfold pyRound2
  have : (a : ℚ) ≤ (roundHalfEven (q * 100) : ℚ) := by exact_mod_cast h2
  linarith

theorem pyRound2_le {b : ℤ} {q : ℚ} (h : q ≤ (b : ℚ)/100) :
    pyRound2 q ≤ (b : ℚ)/100 := by
  have h1 : q * 100 ≤ (b : ℚ) := by linarith
  have h2 := roundHalfEven_le h1
  unfold pyRound2
  have : (roundHalfEven (q * 100) : ℚ) ≤ (b : ℚ) := by exact_mod_cast h2
  linarith

/-! ### Cognitive fallback estimator (backend/ai/model.py, predict_cognitive_risk_fallback) -/

/-- Reaction-time risk step function from the fallback estimator:
thresholds at 300, 500, 700, 900 ms. -/
def reactionRisk (reaction_time : ℤ) : ℤ :=
  if reaction_time < 300 then 10
  else if reaction_time < 500 then 30
  else if reaction_time < 700 then 50
  else if reaction_time < 900 then 70
  else 90

/-- Pre-clamp weighted overall risk of the fallback estimator:
int(word_risk * 0.25 + memory_risk * 0.50 + reaction_risk * 0.25) with
word_risk = 100 - word_score and memory_risk = 100 - memory_score * 11.11. -/
def fallbackOverallRisk (word_score memory_score reaction_time : ℤ) : ℤ :=
  pyTrunc ((100 - (word_score : ℚ)) * (25/100)
    + (100 - (memory_score : ℚ) * (1111/100)) * (50/100)
    + ((reactionRisk reaction_time : ℤ) : ℚ) * (25/100))

/-- Fallback confidence: round(max(0.45, min(0.85, 1 - variance / 2)), 2)
where variance sums the disagreements of the normalized inputs. -/
def fallbackConfidence (word_score memory_score reaction_time : ℤ) : ℚ :=
  pyRound2 (max (45/100)
    (min (85/100)
      (1 - (|(word_score : ℚ)/100 - (memory_score : ℚ)/9|
            + |(memory_score : ℚ)/9 - min ((reaction_time : ℚ)/1500) 1|) / 2)))

/-- Rule-based fallback prediction: returns (clamped risk score, confidence). -/
def predict_cognitive_risk_fallback (word_score memory_score reaction_time : ℤ) :
    ℤ × ℚ :=
  (max 0 (min 100 (fallbackOverallRisk word_score memory_score reaction_time)),
   fallbackConfidence word_score memory_score reaction_time)

/-! ### Model-backed estimators with catch-and-fallback (backend/ai/model.py) -/

/-- Model-backed cognitive prediction (predict_cognitive_risk). The trained
model inference, from feature preparation through prediction, is abstracted
as mlInfer, which either yields a pre-clamp (risk score, confidence) pair
or raises; loaded stands for the models_loaded-and-model-present guard.
On any inference error the function returns the fallback result. -/
def predict_cognitive_risk (loaded : Bool)
    (mlInfer : ℤ → ℤ → ℤ → Except Unit (ℤ × ℚ))
    (word_score memory_score reaction_time : ℤ) : ℤ × ℚ :=
  if loaded then
    match mlInfer word_score memory_score reaction_time with
    | Except.ok (s, c) => (max 0 (min 100 s), c)
    | Except.error _ =>
        predict_cognitive_risk_fallback word_score memory_score reaction_time
  else predict_cognitive_risk_fallback word_score memory_score reaction_time

/-- Speech fallback (predict_speech_risk_fallback): the pseudo-random draw
of random.randint(30, 60) is passed in as draw; confidence is fixed 0.50. -/
def predict_speech_risk_fallback (draw : ℤ) : ℤ × ℚ :=
  (draw, 50/100)

/-- Model-backed speech prediction (predict_speech_risk), with the trained
speech model inference abstracted as mlInfer over the audio feature vector;
any inference error falls back to predict_speech_risk_fallback. -/
def predict_speech_risk (loaded : Bool)
    (mlInfer : List ℚ → Except Unit (ℤ × ℚ))
    (audio_features : List ℚ) (draw : ℤ) : ℤ × ℚ :=
  if loaded then
    match mlInfer audio_features with
    | Except.ok (s, c) => (max 0 (min 100 s), c)
    | Except.error _ => predict_speech_risk_fallback draw
  else predict_speech_risk_fallback draw

/-! ### Fusion and categorization (backend/ai/risk_score.py) -/

/-- Overall risk from cognitive and optional speech components:
int(cognitive * (1 - speech_weight) + speech * speech_weight) when speech
is present, the cognitive score alone otherwise, clamped to the range 0-100. -/
def calculate_risk_score (cognitive_risk : ℤ) (speech_risk : Option ℤ)
    (speech_weight : ℚ) : ℤ :=
  match speech_risk with
  | some s =>
      max 0 (min 100 (pyTrunc ((cognitive_risk : ℚ) * (1 - speech_weight)
        + (s : ℚ) * speech_weight)))
  | none => max 0 (min 100 cognitive_risk)

/-- Categorizer thresholds: below 30 Low, below 60 Moderate, else High. -/
def determine_risk_category (risk_score : ℤ) : String :=
  if risk_score < 30 then "Low Risk"
  else if risk_score < 60 then "Moderate Risk"
  else "High Risk"

/-- Low-risk recommendation list, verbatim static data from the source. -/
def low_risk_recs : List String :=
  ["Continue maintaining a healthy lifestyle with regular physical exercise",
   "Engage in mentally stimulating activities such as puzzles, reading, and learning new skills",
   "Maintain strong social connections and stay engaged with your community",
   "Consider annual cognitive health check-ups as a preventive measure",
   "Keep a balanced diet rich in omega-3 fatty acids, antioxidants, and whole foods",
   "Ensure adequate sleep (7-9 hours) and manage stress through relaxation techniques"]

/-- Moderate-risk base recommendation list, verbatim static data. -/
def moderate_risk_recs : List String :=
  ["Schedule a consultation with your healthcare provider for a comprehensive cognitive evaluation",
   "Increase frequency of cognitive exercises and brain training activities",
   "Monitor changes in memory, attention, or cognitive function over the next 3-6 months",
   "Consider lifestyle modifications including improved diet, regular exercise, and quality sleep",
   "Discuss these results with family members or caregivers for support",
   "Reduce stress and practice mindfulness, meditation, or other relaxation techniques",
   "Limit alcohol consumption and avoid smoking"]

/-- High-risk base recommendation list, verbatim static data. -/
def high_risk_recs : List String :=
  ["Seek immediate consultation with a neurologist or cognitive health specialist",
   "Schedule a comprehensive neuropsychological assessment and medical evaluation",
   "Discuss diagnostic testing options (MRI, cognitive assessments) with your healthcare provider",
   "Explore treatment options, medications, and therapeutic interventions",
   "Consider joining support groups for patients and caregivers",
   "Implement safety measures at home and create an advance care plan with family",
   "Explore clinical trials and research opportunities if appropriate",
   "Arrange regular follow-up appointments to monitor cognitive changes"]

/-- Recommendation generator: Low and Moderate categories match by name,
anything else takes the High-Risk branch; list.insert(i, x) in the source
is List.insertIdx i x here. -/
def generate_recommendations (risk_category : String)
    (risk_score cognitive_risk : ℤ) (speech_analyzed : Bool) : List String :=
  if risk_category = "Low Risk" then low_risk_recs
  else if risk_category = "Moderate Risk" then
    (if cognitive_risk > 50 then
      moderate_risk_recs.insertIdx 2
        "Focus on memory exercises and cognitive rehabilitation programs"
     else moderate_risk_recs)
    ++ (if speech_analyzed then
      ["Consider speech therapy consultation if communication difficulties are noticed"]
     else [])
  else
    if speech_analyzed then
      high_risk_recs.insertIdx 3
        "Speech pathology evaluation strongly recommended for communication support"
    else high_risk_recs

/-! ### Probability-scale fusion variant (ai/risk_score.py) -/

/-- Probability-scale categorizer of the standalone module. -/
def get_risk_category (risk_score : ℚ) : String :=
  if risk_score < 3/10 then "Low Risk"
  else if risk_score < 6/10 then "Moderate Risk"
  else "High Risk"

/-- Weighted probability of calculate_final_risk: weights 0.5/0.3/0.2 with
behavioral present, 0.6/0.4 without. -/
def finalRiskProb (cognitive_risk speech_risk : ℚ)
    (behavioral_risk : Option ℚ) : ℚ :=
  match behavioral_risk with
  | some b => cognitive_risk * (5/10) + speech_risk * (3/10) + b * (2/10)
  | none => cognitive_risk * (6/10) + speech_risk * (4/10)

/-- Probability-scale fusion calculate_final_risk: returns the percentage
rounded to two decimals and the category of the unrounded probability. -/
def calculate_final_risk (cognitive_risk speech_risk : ℚ)
    (behavioral_risk : Option ℚ) : ℚ × String :=
  (pyRound2 (finalRiskProb cognitive_risk speech_risk behavioral_risk * 100),
   get_risk_category (finalRiskProb cognitive_risk speech_risk behavioral_risk))

/-! ### Analyze-route adapter steps (backend/routes/analyze.py) -/

/-- Python option-or with a default: a or d for an optional float a, where
None and 0 are falsy. -/
def pyOrQ (a : Option ℚ) (d : ℚ) : ℚ :=
  match a with
  | some x => if x = 0 then d else x
  | none => d

/-- Field-alias resolution primary or alternate or 0 from the route. -/
def resolveField (primary alternate : Option ℚ) : ℚ :=
  pyOrQ primary (pyOrQ alternate 0)

/-- Validation step of analyze_assessment: resolve each cognitive field from
its two aliases, then reject with the missing-scores client error exactly
when all three resolved values are zero. -/
def validate_cognitive_inputs (word_test_score word_score : Option ℚ)
    (memory_test_score memory_score : Option ℚ)
    (reaction_time_param reaction_time : Option ℚ) :
    Except String (ℚ × ℚ × ℚ) :=
  if resolveField word_test_score word_score = 0
      ∧ resolveField memory_test_score memory_score = 0
      ∧ resolveField reaction_time_param reaction_time = 0 then
    Except.error "Missing cognitive test scores. Please provide word_score, memory_score, and reaction_time."
  else
    Except.ok (resolveField word_test_score word_score,
      resolveField memory_test_score memory_score,
      resolveField reaction_time_param reaction_time)

/-- Memory-score rescaling step of analyze_assessment: values above 9 are
taken as 0-100 scale and mapped through int(value / 100 * 9), others pass
through unchanged. -/
def rescale_memory (final_memory_score : ℚ) : ℚ :=
  if final_memory_score > 9 then
    ((pyTrunc (final_memory_score / 100 * 9) : ℤ) : ℚ)
  else final_memory_score

/-! ### Spec-side definitions for refinement comparisons -/

/-- Fusion as the spec words it for the cognitive-plus-speech case:
round(0.7 * cognitive + 0.3 * speech) clamped to 0-100. -/
def fusionSpecRound (cognitive_risk speech_risk : ℤ) : ℤ :=
  max 0 (min 100 (roundHalfEven
    ((7/10) * (cognitive_risk : ℚ) + (3/10) * (speech_risk : ℚ))))

/-- Memory rescaling as the spec words it: round(value / 100 * 9) for
values above 9, identity otherwise. -/
def rescale_memory_spec (final_memory_score : ℚ) : ℚ :=
  if final_memory_score > 9 then
    ((roundHalfEven (final_memory_score / 100 * 9) : ℤ) : ℚ)
  else final_memory_score

/-! ### Shared helper lemmas -/

theorem pyRound2_clamp_mem (x : ℚ) :
    45/100 ≤ pyRound2 (max (45/100) (min (85/100) x)) ∧
    pyRound2 (max (45/100) (min (85/100) x)) ≤ 85/100 := by
  constructor
  · have h : ((45 : ℤ) : ℚ)/100 ≤ max (45/100) (min (85/100) x) := by
      push_cast
      exact le_max_left _ _
    have h2 := pyRound2_ge h
    push_cast at h2
    linarith
  · have h : max (45/100) (min (85/100) x) ≤ ((85 : ℤ) : ℚ)/100 := by
      push_cast
      exact max_le (by norm_num) (min_le_left _ _)
    have h2 := pyRound2_le h
    push_cast at h2
    linarith

theorem pyRound2_mem_0_100 {q : ℚ} (h0 : 0 ≤ q) (h1 : q ≤ 100) :
    0 ≤ pyRound2 q ∧ pyRound2 q ≤ 100 := by
  constructor
  · have h : ((0 : ℤ) : ℚ)/100 ≤ q := by push_cast; linarith
    have h2 := pyRound2_ge h
    push_cast at h2
    linarith
  · have h : q ≤ ((10000 : ℤ) : ℚ)/100 := by push_cast; linarith
    have h2 := pyRound2_le h
    push_cast at h2
    linarith

theorem clamp_mono {x y : ℤ} (h : x ≤ y) :
    max 0 (min 100 x) ≤ max 0 (min 100 y) :=
  max_le_max (le_refl 0) (min_le_min (le_refl 100) h)

theorem reactionRisk_mono {a b : ℤ} (h : a ≤ b) :
    reactionRisk a ≤ reactionRisk b := by
  unfold reactionRisk
  split_ifs <;> omega

/-! ### C1: fallback score and confidence bounds -/

/-- C1: for word_score in 0-100, memory_score in 0-9 and nonnegative
reaction time, the fallback estimator returns a risk score in 0-100 and a
confidence between 0.45 and 0.85. -/
theorem C1_fallback_bounds (w m rt : ℤ)
    (hw0 : 0 ≤ w) (hw1 : w ≤ 100) (hm0 : 0 ≤ m) (hm1 : m ≤ 9) (hrt : 0 ≤ rt) :
    0 ≤ (predict_cognitive_risk_fallback w m rt).1 ∧
    (predict_cognitive_risk_fallback w m rt).1 ≤ 100 ∧
    45/100 ≤ (predict_cognitive_risk_fallback w m rt).2 ∧
    (predict_cognitive_risk_fallback w m rt).2 ≤ 85/100 := by
  refine ⟨le_max_left _ _, max_le (by norm_num) (min_le_left _ _), ?_, ?_⟩
  · exact (pyRound2_clamp_mem _).1
  · exact (pyRound2_clamp_mem _).2

theorem C1_fallback_bounds_witness :
    0 ≤ (predict_cognitive_risk_fallback 90 8 250).1 ∧
    (predict_cognitive_risk_fallback 90 8 250).1 ≤ 100 ∧
    45/100 ≤ (predict_cognitive_risk_fallback 90 8 250).2 ∧
    (predict_cognitive_risk_fallback 90 8 250).2 ≤ 85/100 :=
  C1_fallback_bounds 90 8 250 (by norm_num) (by norm_num) (by norm_num)
    (by norm_num) (by norm_num)

/-! ### C2: fallback score monotonicity in each input -/

/-- C2: the fallback risk score never increases when word_score increases,
never increases when memory_score increases within 0-9, and never decreases
when reaction_time increases, the other inputs held fixed. -/
theorem C2_fallback_monotone :
    (∀ m rt w1 w2 : ℤ, w1 ≤ w2 →
      (predict_cognitive_risk_fallback w2 m rt).1 ≤
        (predict_cognitive_risk_fallback w1 m rt).1) ∧
    (∀ w rt m1 m2 : ℤ, 0 ≤ m1 → m2 ≤ 9 → m1 ≤ m2 →
      (predict_cognitive_risk_fallback w m2 rt).1 ≤
        (predict_cognitive_risk_fallback w m1 rt).1) ∧
    (∀ w m rt1 rt2 : ℤ, rt1 ≤ rt2 →
      (predict_cognitive_risk_fallback w m rt1).1 ≤
        (predict_cognitive_risk_fallback w m rt2).1) := by
  refine ⟨?_, ?_, ?_⟩
  · intro m rt w1 w2 h
    apply clamp_mono
    apply pyTrunc_mono
    have hc : (w1 : ℚ) ≤ (w2 : ℚ) := by exact_mod_cast h
    linarith
  · intro w rt m1 m2 _ _ h
    apply clamp_mono
    apply pyTrunc_mono
    have hc : (m1 : ℚ) ≤ (m2 : ℚ) := by exact_mod_cast h
    linarith
  · intro w m rt1 rt2 h
    apply clamp_mono
    apply pyTrunc_mono
    have hr := reactionRisk_mono h
    have hc : ((reactionRisk rt1 : ℤ) : ℚ) ≤ ((reactionRisk rt2 : ℤ) : ℚ) := by
      exact_mod_cast hr
    linarith

theorem C2_fallback_monotone_witness :
    (predict_cognitive_risk_fallback 50 4 400).1 ≤
      (predict_cognitive_risk_fallback 30 4 400).1 ∧
    (predict_cognitive_risk_fallback 50 7 400).1 ≤
      (predict_cognitive_risk_fallback 50 2 400).1 ∧
    (predict_cognitive_risk_fallback 50 4 400).1 ≤
      (predict_cognitive_risk_fallback 50 4 800).1 :=
  ⟨C2_fallback_monotone.1 4 400 30 50 (by norm_num),
   C2_fallback_monotone.2.1 50 400 2 7 (by norm_num) (by norm_num) (by norm_num),
   C2_fallback_monotone.2.2 50 4 400 800 (by norm_num)⟩

/-! ### C3: fusion formula of the analyze pipeline -/

/-- C3 counterexample: with cognitive 1 and speech 3, the source fusion
truncates 1.6 to 1 while the round-based formula of the claim gives 2. -/
theorem C3_fusion_round_counterexample :
    calculate_risk_score 1 (some 3) (3/10) ≠ fusionSpecRound 1 3 := by
  have h1 : calculate_risk_score 1 (some 3) (3/10) = 1 := by
    unfold calculate_risk_score pyTrunc
    norm_num
  have h2 : fusionSpecRound 1 3 = 2 := by
    unfold fusionSpecRound roundHalfEven
    norm_num
  rw [h1, h2]
  decide

/-- C3 amended: with speech present the analyze-pipeline call returns the
truncation (not the rounding) of 0.7 * cognitive + 0.3 * speech clamped to
0-100, and with speech absent it returns the cognitive score unchanged for
any weight. -/
theorem C3_fusion_truncates (c s : ℤ) (w : ℚ) (h0 : 0 ≤ c) (h1 : c ≤ 100) :
    calculate_risk_score c (some s) (3/10) =
      max 0 (min 100 (pyTrunc ((7/10) * (c : ℚ) + (3/10) * (s : ℚ)))) ∧
    calculate_risk_score c none w = c := by
  constructor
  · unfold calculate_risk_score
    norm_num
    ring_nf
  · unfold calculate_risk_score
    rw [min_eq_right h1, max_eq_right h0]

theorem C3_fusion_truncates_witness :
    calculate_risk_score 48 (some 35) (3/10) =
      max 0 (min 100 (pyTrunc ((7/10) * ((48 : ℤ) : ℚ) + (3/10) * ((35 : ℤ) : ℚ)))) ∧
    calculate_risk_score 48 none 0 = 48 :=
  C3_fusion_truncates 48 35 0 (by norm_num) (by norm_num)

/-! ### C4: fused scores are bounded -/

/-- C4: calculate_risk_score always lands in 0-100 for every present-signal
combination, and calculate_final_risk stays in the 0-100 percentage range
whenever each supplied probability is in 0-1, with or without behavioral. -/
theorem C4_fusion_bounded :
    (∀ (c : ℤ) (s : Option ℤ) (w : ℚ),
      0 ≤ calculate_risk_score c s w ∧ calculate_risk_score c s w ≤ 100) ∧
    (∀ c s : ℚ, 0 ≤ c → c ≤ 1 → 0 ≤ s → s ≤ 1 →
      (0 ≤ (calculate_final_risk c s none).1 ∧
        (calculate_final_risk c s none).1 ≤ 100) ∧
      ∀ b : ℚ, 0 ≤ b → b ≤ 1 →
        0 ≤ (calculate_final_risk c s (some b)).1 ∧
          (calculate_final_risk c s (some b)).1 ≤ 100) := by
  constructor
  · intro c s w
    match s with
    | some sv =>
        exact ⟨le_max_left _ _, max_le (by norm_num) (min_le_left _ _)⟩
    | none =>
        exact ⟨le_max_left _ _, max_le (by norm_num) (min_le_left _ _)⟩
  · intro c s hc0 hc1 hs0 hs1
    constructor
    · have hp0 : (0 : ℚ) ≤ finalRiskProb c s none * 100 := by
        unfold finalRiskProb
        linarith
      have hp1 : finalRiskProb c s none * 100 ≤ 100 := by
        unfold finalRiskProb
        linarith
      exact pyRound2_mem_0_100 hp0 hp1
    · intro b hb0 hb1
      have hp0 : (0 : ℚ) ≤ finalRiskProb c s (some b) * 100 := by
        unfold finalRiskProb
        linarith
      have hp1 : finalRiskProb c s (some b) * 100 ≤ 100 := by
        unfold finalRiskProb
        linarith
      exact pyRound2_mem_0_100 hp0 hp1

theorem C4_fusion_bounded_witness :
    (0 ≤ calculate_risk_score 48 (some 35) (3/10) ∧
      calculate_risk_score 48 (some 35) (3/10) ≤ 100) ∧
    0 ≤ (calculate_final_risk (1/2) (1/4) (some (3/4))).1 ∧
      (calculate_final_risk (1/2) (1/4) (some (3/4))).1 ≤ 100 :=
  ⟨C4_fusion_bounded.1 48 (some 35) (3/10),
   ((C4_fusion_bounded.2 (1/2) (1/4) (by norm_num) (by norm_num) (by norm_num)
      (by norm_num)).2 (3/4) (by norm_num) (by norm_num))⟩

/-! ### C5: categorizer purity and exact boundaries -/

/-- C5: the categorizer is a pure function of the score, maps scores below
30 to Low Risk, scores from 30 to 59 to Moderate Risk, scores of 60 or more
to High Risk, and hits the exact boundary values 29, 30, 59, 60. -/
theorem C5_categorizer_boundaries (s : ℤ) :
    determine_risk_category s = determine_risk_category s ∧
    (s < 30 → determine_risk_category s = "Low Risk") ∧
    (30 ≤ s → s < 60 → determine_risk_category s = "Moderate Risk") ∧
    (60 ≤ s → determine_risk_category s = "High Risk") ∧
    determine_risk_category 29 = "Low Risk" ∧
    determine_risk_category 30 = "Moderate Risk" ∧
    determine_risk_category 59 = "Moderate Risk" ∧
    determine_risk_category 60 = "High Risk" := by
  refine ⟨rfl, ?_, ?_, ?_, rfl, rfl, rfl, rfl⟩
  · intro h
    unfold determine_risk_category
    rw [if_pos h]
  · intro h1 h2
    unfold determine_risk_category
    rw [if_neg (by omega), if_pos h2]
  · intro h
    unfold determine_risk_category
    rw [if_neg (by omega), if_neg (by omega)]

theorem C5_categorizer_boundaries_witness :
    determine_risk_category 10 = "Low Risk" ∧
    determine_risk_category 44 = "Moderate Risk" ∧
    determine_risk_category 87 = "High Risk" :=
  ⟨(C5_categorizer_boundaries 10).2.1 (by norm_num),
   (C5_categorizer_boundaries 44).2.2.1 (by norm_num) (by norm_num),
   (C5_categorizer_boundaries 87).2.2.2.1 (by norm_num)⟩

/-! ### C6: all-default cognitive inputs are rejected, and only those -/

/-- C6: the analyze validation step returns the missing-scores client error
exactly when all three resolved cognitive fields are zero; a request with
any non-zero resolved field passes this check. -/
theorem C6_all_default_rejected
    (wts ws mts ms rtp rt : Option ℚ) :
    validate_cognitive_inputs wts ws mts ms rtp rt =
      Except.error "Missing cognitive test scores. Please provide word_score, memory_score, and reaction_time."
    ↔ (resolveField wts ws = 0 ∧ resolveField mts ms = 0 ∧
        resolveField rtp rt = 0) := by
  unfold validate_cognitive_inputs
  split_ifs with h
  · exact iff_of_true rfl h
  · exact iff_of_false (by simp) h

theorem C6_all_default_rejected_witness :
    validate_cognitive_inputs (some 0) none none (some 0) none (some 0) =
      Except.error "Missing cognitive test scores. Please provide word_score, memory_score, and reaction_time."
    ∧ ¬(validate_cognitive_inputs (some 80) none (some 5) none (some 400) none =
      Except.error "Missing cognitive test scores. Please provide word_score, memory_score, and reaction_time.") :=
  ⟨(C6_all_default_rejected (some 0) none none (some 0) none (some 0)).mpr
      (by refine ⟨?_, ?_, ?_⟩ <;> decide),
   fun h => by
     have h2 := (C6_all_default_rejected (some 80) none (some 5) none (some 400) none).mp h
     exact absurd h2.1 (by decide)⟩

/-! ### C7: inference errors never propagate and yield the fallback result -/

/-- C7: if the model-backed inference raises, predict_cognitive_risk returns
exactly the fallback pair for the same input, and predict_speech_risk
returns exactly the speech fallback, in every loaded state. -/
theorem C7_error_falls_back :
    (∀ (loaded : Bool) (ml : ℤ → ℤ → ℤ → Except Unit (ℤ × ℚ)) (w m rt : ℤ),
      ml w m rt = Except.error () →
      predict_cognitive_risk loaded ml w m rt =
        predict_cognitive_risk_fallback w m rt) ∧
    (∀ (loaded : Bool) (ml : List ℚ → Except Unit (ℤ × ℚ))
        (feats : List ℚ) (draw : ℤ),
      ml feats = Except.error () →
      predict_speech_risk loaded ml feats draw =
        predict_speech_risk_fallback draw) := by
  constructor
  · intro loaded ml w m rt h
    unfold predict_cognitive_risk
    cases loaded with
    | false => rfl
    | true => rw [if_pos rfl, h]
  · intro loaded ml feats draw h
    unfold predict_speech_risk
    cases loaded with
    | false => rfl
    | true => rw [if_pos rfl, h]

theorem C7_error_falls_back_witness :
    predict_cognitive_risk true (fun _ _ _ => Except.error ()) 50 4 400 =
      predict_cognitive_risk_fallback 50 4 400 ∧
    predict_speech_risk true (fun _ => Except.error ()) [] 45 =
      predict_speech_risk_fallback 45 :=
  ⟨C7_error_falls_back.1 true (fun _ _ _ => Except.error ()) 50 4 400 rfl,
   C7_error_falls_back.2 true (fun _ => Except.error ()) [] 45 rfl⟩

/-! ### C8: speech fallback band and fixed confidence -/

/-- C8: whenever the speech fallback path is taken, either because no model
is loaded or because inference raised, the returned score stays in the
moderate band 30-60 and the confidence is exactly 0.50, for every draw the
pseudo-random generator can produce. -/
theorem C8_speech_fallback_band
    (ml : List ℚ → Except Unit (ℤ × ℚ)) (feats : List ℚ) (draw : ℤ)
    (h30 : 30 ≤ draw) (h60 : draw ≤ 60) :
    (30 ≤ (predict_speech_risk false ml feats draw).1 ∧
     (predict_speech_risk false ml feats draw).1 ≤ 60 ∧
     (predict_speech_risk false ml feats draw).2 = 50/100) ∧
    (ml feats = Except.error () →
     30 ≤ (predict_speech_risk true ml feats draw).1 ∧
     (predict_speech_risk true ml feats draw).1 ≤ 60 ∧
     (predict_speech_risk true ml feats draw).2 = 50/100) := by
  constructor
  · exact ⟨h30, h60, rfl⟩
  · intro h
    have he : predict_speech_risk true ml feats draw =
        predict_speech_risk_fallback draw := by
      unfold predict_speech_risk
      rw [if_pos rfl, h]
    rw [he]
    exact ⟨h30, h60, rfl⟩

theorem C8_speech_fallback_band_witness :
    30 ≤ (predict_speech_risk false (fun _ => Except.error ()) [] 45).1 ∧
    (predict_speech_risk false (fun _ => Except.error ()) [] 45).1 ≤ 60 ∧
    (predict_speech_risk false (fun _ => Except.error ()) [] 45).2 = 50/100 :=
  (C8_speech_fallback_band (fun _ => Except.error ()) [] 45
    (by norm_num) (by norm_num)).1

/-! ### C9: memory-score rescaling -/

/-- C9 counterexample: an incoming memory score of 95 is rescaled by the
source to int(95 / 100 * 9) = 8, while the round-based formula of the
claim gives 9. -/
theorem C9_rescale_round_counterexample :
    rescale_memory 95 ≠ rescale_memory_spec 95 := by
  have h1 : rescale_memory 95 = 8 := by
    unfold rescale_memory pyTrunc
    norm_num
  have h2 : rescale_memory_spec 95 = 9 := by
    unfold rescale_memory_spec roundHalfEven
    norm_num
  rw [h1, h2]
  norm_num

/-- C9 amended: incoming memory values strictly above 9 are rescaled to
int(value / 100 * 9), truncation toward zero rather than rounding, and
values of at most 9 pass through unchanged. -/
theorem C9_rescale_truncates (v : ℚ) :
    (9 < v → rescale_memory v = ((pyTrunc (v / 100 * 9) : ℤ) : ℚ)) ∧
    (v ≤ 9 → rescale_memory v = v) := by
  constructor
  · intro h
    unfold rescale_memory
    rw [if_pos h]
  · intro h
    unfold rescale_memory
    rw [if_neg (not_lt_of_ge h)]

theorem C9_rescale_truncates_witness :
    rescale_memory 95 = ((pyTrunc ((95 : ℚ) / 100 * 9) : ℤ) : ℚ) ∧
    rescale_memory 5 = 5 :=
  ⟨(C9_rescale_truncates 95).1 (by norm_num),
   (C9_rescale_truncates 5).2 (by norm_num)⟩

/-! ### C10: recommendations for unknown categories, never empty -/

/-- C10: every category other than Low Risk and Moderate Risk takes the
High-Risk branch: 8 fixed recommendations without speech, 9 with speech and
the speech-pathology item at index 3; and no input yields an empty list. -/
theorem C10_recommendations_default_high :
    (∀ (cat : String) (rs cr : ℤ) (sp : Bool),
      cat ≠ "Low Risk" → cat ≠ "Moderate Risk" →
      generate_recommendations cat rs cr sp =
        (if sp then
          high_risk_recs.insertIdx 3
            "Speech pathology evaluation strongly recommended for communication support"
         else high_risk_recs) ∧
      (generate_recommendations cat rs cr sp).length = (if sp then 9 else 8) ∧
      (sp = true →
        (generate_recommendations cat rs cr sp)[3]? =
          some "Speech pathology evaluation strongly recommended for communication support")) ∧
    (∀ (cat : String) (rs cr : ℤ) (sp : Bool),
      generate_recommendations cat rs cr sp ≠ []) := by
  constructor
  · intro cat rs cr sp h1 h2
    have he : generate_recommendations cat rs cr sp =
        (if sp then
          high_risk_recs.insertIdx 3
            "Speech pathology evaluation strongly recommended for communication support"
         else high_risk_recs) := by
      unfold generate_recommendations
      rw [if_neg h1, if_neg h2]
    refine ⟨he, ?_, ?_⟩
    · rw [he]
      cases sp with
      | false => rfl
      | true => rfl
    · intro hsp
      rw [he, hsp]
      rfl
  · intro cat rs cr sp
    unfold generate_recommendations
    split_ifs <;>
      simp [low_risk_recs, moderate_risk_recs, high_risk_recs, List.insertIdx]

theorem C10_recommendations_default_high_witness :
    generate_recommendations "Elevated" 70 70 true =
      high_risk_recs.insertIdx 3
        "Speech pathology evaluation strongly recommended for communication support" ∧
    (generate_recommendations "Elevated" 70 70 true).length = 9 ∧
    (generate_recommendations "Elevated" 70 70 false).length = 8 := by
  have h := C10_recommendations_default_high.1 "Elevated" 70 70 true
    (by decide) (by decide)
  have h2 := C10_recommendations_default_high.1 "Elevated" 70 70 false
    (by decide) (by decide)
  refine ⟨?_, ?_, ?_⟩
  · have := h.1
    simpa using this
  · have := h.2.1
    simpa using this
  · have := h2.2.1
    simpa using this

end TheSos
